import Mathlib

/-!
Shallow embedding of `scripts/clone_webpage.py` (webpage snapshot tool).

The script downloads a rendered page, rewrites stylesheet/script/image/link
references to local filenames, and saves everything into an output directory.
Network I/O is modelled by a `Transport` oracle (URL to optional HTTP
response), disk writes by a `WriteOracle` (filename to write-success), and the
mutable run state (files written so far, `requests.get` invocations) by a
`Session` record threaded through the definitions.  All string work is done on
`List Char` with structural or fuel-bounded recursion so that every definition
evaluates by kernel reduction.
-/

/-- Does the character list `l` start with the character list `p`? -/
def startsWithChars : List Char → List Char → Bool
  | _, [] => true
  | [], _ :: _ => false
  | c :: cs, p :: ps => c == p && startsWithChars cs ps

/-- Python `pat in s` substring test (for non-empty `pat`). -/
def containsChars (l pat : List Char) : Bool :=
  match l with
  | [] => pat.isEmpty
  | _ :: rest => startsWithChars l pat || containsChars rest pat

/-- Python `s.split(c)[0]`: the characters before the first occurrence of `c`. -/
def takeUntilChar (c : Char) (l : List Char) : List Char :=
  l.takeWhile (fun x => x != c)

/-- Python whitespace class (`\s` over ASCII): space, tab, LF, CR, VT, FF. -/
def isPySpace (c : Char) : Bool :=
  c == ' ' || c == '\t' || c == '\n' || c == '\r' || c == '\x0b' || c == '\x0c'

/-- Python `s.strip()` restricted to ASCII whitespace. -/
def stripChars (l : List Char) : List Char :=
  ((l.dropWhile isPySpace).reverse.dropWhile isPySpace).reverse

/-- Python `s.split(sep)` for a single-character separator. -/
def splitOnChar (c : Char) : List Char → List (List Char)
  | [] => [[]]
  | x :: xs =>
    let r := splitOnChar c xs
    if x = c then [] :: r
    else
      match r with
      | h :: t => (x :: h) :: t
      | [] => [[x]]

/-- Python `sep.join(parts)` for a single-character separator. -/
def joinWithChar (c : Char) : List (List Char) → List Char
  | [] => []
  | [p] => p
  | p :: rest => p ++ c :: joinWithChar c rest

/-- Python `str.replace(pat, rep)`: replace every (leftmost, non-overlapping)
occurrence of `pat`; fuel-bounded so it evaluates in the kernel.  `pat` is
always non-empty at call sites (regex groups are `+`-quantified). -/
def replaceAllAux (pat rep : List Char) : Nat → List Char → List Char
  | _, [] => []
  | 0, l => l
  | fuel + 1, c :: rest =>
    if !pat.isEmpty && startsWithChars (c :: rest) pat then
      rep ++ replaceAllAux pat rep fuel ((c :: rest).drop pat.length)
    else
      c :: replaceAllAux pat rep fuel rest

/-- Entry point of `replaceAllAux` with enough fuel for the whole input. -/
def replaceAll (l pat rep : List Char) : List Char :=
  replaceAllAux pat rep l.length l

/-- Result of `urllib.parse.urlsplit`: scheme, netloc, path, query, fragment
(`;` parameter splitting of `urlparse` is not modelled; no input URL in this
development carries parameters). -/
structure ParsedUrl where
  scheme : String
  netloc : String
  path : String
  query : String
  fragment : String
deriving DecidableEq, Repr

/-- Characters allowed in a URL scheme after the initial letter. -/
def isSchemeChar (c : Char) : Bool :=
  c.isAlphanum || c == '+' || c == '-' || c == '.'

/-- Split a character list at the first occurrence of `c`; the separator is
dropped.  Returns `none` when `c` does not occur. -/
def splitAtFirstChar (c : Char) : List Char → Option (List Char × List Char)
  | [] => none
  | x :: xs =>
    if x = c then some ([], xs)
    else
      match splitAtFirstChar c xs with
      | some (a, b) => some (x :: a, b)
      | none => none

/-- Model of `urllib.parse.urlparse` (scheme detection, `//netloc`, fragment
and query splitting, scheme lowercasing), following CPython's `urlsplit`. -/
def urlparse (url : String) : ParsedUrl :=
  let l := url.data
  -- scheme: valid prefix before the first ':'
  let (scheme, rest) :=
    match splitAtFirstChar ':' l with
    | some (pre, post) =>
      match pre with
      | [] => ([], l)
      | c0 :: _ =>
        if c0.isAlpha && pre.all isSchemeChar then (pre.map Char.toLower, post)
        else ([], l)
    | none => ([], l)
  -- netloc: after a leading '//', up to the next '/', '?' or '#'
  let (netloc, rest2) :=
    if startsWithChars rest ['/', '/'] then
      let r := rest.drop 2
      let n := r.takeWhile (fun c => c != '/' && c != '?' && c != '#')
      (n, r.drop n.length)
    else ([], rest)
  -- fragment: after the first '#'
  let (rest3, fragment) :=
    match splitAtFirstChar '#' rest2 with
    | some (a, b) => (a, b)
    | none => (rest2, [])
  -- query: after the first '?'
  let (path, query) :=
    match splitAtFirstChar '?' rest3 with
    | some (a, b) => (a, b)
    | none => (rest3, [])
  ⟨String.mk scheme, String.mk netloc, String.mk path, String.mk query, String.mk fragment⟩

/-- Schemes for which relative joining applies (CPython `uses_relative`). -/
def usesRelative : List String :=
  ["", "ftp", "http", "gopher", "nntp", "imap", "wais", "file", "https",
   "shttp", "mms", "prospero", "rtsp", "rtspu", "sftp", "svn", "svn+ssh",
   "ws", "wss"]

/-- Schemes that carry a network location (CPython `uses_netloc`). -/
def usesNetloc : List String :=
  ["", "ftp", "http", "gopher", "nntp", "telnet", "imap", "wais", "file",
   "mms", "https", "shttp", "snews", "prospero", "rtsp", "rtspu", "rsync",
   "svn", "svn+ssh", "sftp", "nfs", "git", "git+ssh", "ws", "wss"]

/-- CPython `urlunsplit`, restricted to the fields we model. -/
def urlunsplit (scheme netloc path query fragment : List Char) : List Char :=
  let url := path
  let url :=
    if !netloc.isEmpty || startsWithChars path ['/', '/'] then
      ['/', '/'] ++ netloc ++
        (if !url.isEmpty && url.head? != some '/' then '/' :: url else url)
    else url
  let url := if !scheme.isEmpty then scheme ++ ':' :: url else url
  let url := if !query.isEmpty then url ++ '?' :: query else url
  if !fragment.isEmpty then url ++ '#' :: fragment else url

/-- Python `filter(None, segments[1:-1])`: keep the first and last path
segments, drop empty interior segments. -/
def interiorFilter (l : List (List Char)) : List (List Char) :=
  match l with
  | [] => []
  | a :: rest =>
    match rest.reverse with
    | [] => [a]
    | last :: midRev => a :: (midRev.reverse.filter (fun s => !s.isEmpty)) ++ [last]

/-- RFC 3986 dot-segment resolution as implemented in CPython `urljoin`. -/
def resolveSegments (segments : List (List Char)) : List Char :=
  let resolved := segments.foldl
    (fun acc seg =>
      if seg = ['.', '.'] then acc.dropLast
      else if seg = ['.'] then acc
      else acc ++ [seg]) []
  let resolved :=
    match segments.getLast? with
    | some s => if s = ['.'] || s = ['.', '.'] then resolved ++ [[]] else resolved
    | none => resolved
  joinWithChar '/' resolved

/-- Model of `urllib.parse.urljoin` (CPython implementation, without `;`
parameter splitting). -/
def urljoin (base url : String) : String :=
  if base == "" then url
  else if url == "" then base
  else
    let b := urlparse base
    let u := urlparse url
    let scheme := if u.scheme == "" then b.scheme else u.scheme
    if scheme != b.scheme || !(usesRelative.contains scheme) then url
    else if usesNetloc.contains scheme && u.netloc != "" then
      String.mk (urlunsplit scheme.data u.netloc.data u.path.data u.query.data u.fragment.data)
    else
      let netloc := if usesNetloc.contains scheme && u.netloc == "" then b.netloc else u.netloc
      if u.path == "" then
        let query := if u.query == "" then b.query else u.query
        String.mk (urlunsplit scheme.data netloc.data b.path.data query.data u.fragment.data)
      else
        let segments :=
          if startsWithChars u.path.data ['/'] then splitOnChar '/' u.path.data
          else
            let baseParts := splitOnChar '/' b.path.data
            let baseParts :=
              match baseParts.getLast? with
              | some s => if !s.isEmpty then baseParts.dropLast else baseParts
              | none => baseParts
            interiorFilter (baseParts ++ splitOnChar '/' u.path.data)
        String.mk (urlunsplit scheme.data netloc.data (resolveSegments segments)
          u.query.data u.fragment.data)

/-- Python `os.path.basename` (POSIX): the characters after the last `/`. -/
def basenameChars (l : List Char) : List Char :=
  (l.reverse.takeWhile (fun c => c != '/')).reverse

/-- Extension part of `os.path.splitext`: the suffix from the last `.` of the
final path component, provided some earlier character of that component is not
a dot (so `.bashrc` has no extension), following CPython `posixpath.splitext`. -/
def splitextExt (l : List Char) : List Char :=
  let b := basenameChars l
  let rb := b.reverse
  let afterDot := rb.takeWhile (fun c => c != '.')
  if afterDot.length = rb.length then []
  else
    let beforeDot := rb.drop (afterDot.length + 1)
    if beforeDot.any (fun c => c != '.') then '.' :: afterDot.reverse else []

/-- Python `re.sub(r'[^\w\-\.]', '_', s)` over ASCII: keep word characters,
hyphens and dots, replace everything else with `_`. -/
def subFilenameChars (l : List Char) : List Char :=
  l.map (fun c => if c.isAlphanum || c == '_' || c == '-' || c == '.' then c else '_')

/-- Model of `mimetypes.guess_extension`, restricted to the content types
exercised in this development; every other content type maps to `none`,
matching `guess_extension` on unknown or empty types. -/
def guess_extension (ct : String) : Option String :=
  if ct == "text/css" then some ".css"
  else if ct == "image/png" then some ".png"
  else if ct == "application/javascript" then some ".js"
  else if ct == "image/jpeg" then some ".jpg"
  else none

/-- Filename computed by `download_resource` (clone_webpage.py lines 39-41):
`ext` is `mimetypes.guess_extension(content_type)`, else the extension of the
URL path, else `.bin`; the name is `re.sub` over the path basename, else
`resource` followed by `ext`. -/
def derive_filename (path ct : String) : String :=
  let ext :=
    match guess_extension ct with
    | some e => e.data
    | none =>
      let pe := splitextExt path.data
      if pe.isEmpty then ".bin".data else pe
  let base := subFilenameChars (basenameChars path.data)
  if base.isEmpty then String.mk ("resource".data ++ ext) else String.mk base

/-- An HTTP response as seen through `requests.get`: status code, the
`Content-Type` header (empty when absent, matching the `headers.get` default),
and the body (`response.content` / `response.text`). -/
structure Response where
  status : Nat
  contentType : String
  body : String
deriving DecidableEq, Repr

/-- Network oracle: `none` models a connection/timeout error raised by
`requests.get`; `some r` models a completed HTTP exchange. -/
def Transport : Type := String → Option Response

/-- Disk oracle: `false` models an OSError raised when opening/writing the
named file in the output directory. -/
def WriteOracle : Type := String → Bool

/-- Mutable run state: files written into the output directory (in write
order, later entries overwrite earlier ones of the same name) and the URLs
passed to `requests.get`, in call order. -/
structure Session where
  files : List (String × String)
  fetchLog : List String
deriving DecidableEq, Repr

/-- The empty state at the start of a run. -/
def emptySession : Session := ⟨[], []⟩

/-- Model of `download_resource` (clone_webpage.py lines 28-49).  Skips empty
URLs, URLs containing `data:` and URLs starting with `#`; skips URLs without
scheme or netloc; performs the fetch (recorded in `fetchLog`); treats 4xx/5xx
(`raise_for_status`) and network/write errors as failure returning `none`;
otherwise writes the body under the derived filename and returns it. -/
def download_resource (t : Transport) (w : WriteOracle) (url : String)
    (s : Session) : Option String × Session :=
  if url == "" || containsChars url.data "data:".data || startsWithChars url.data ['#'] then
    (none, s)
  else
    let parsed := urlparse url
    if parsed.scheme == "" || parsed.netloc == "" then (none, s)
    else
      let s1 : Session := { s with fetchLog := s.fetchLog ++ [url] }
      match t url with
      | none => (none, s1)
      | some r =>
        if 400 ≤ r.status && r.status < 600 then (none, s1)
        else
          let filename := derive_filename parsed.path r.contentType
          if w filename then
            (some filename, { s1 with files := s1.files ++ [(filename, r.body)] })
          else (none, s1)

/-- The value returned by `download_resource`, which does not depend on the
session state (only the recorded side effects do). -/
def downloadResult (t : Transport) (w : WriteOracle) (url : String) : Option String :=
  (download_resource t w url emptySession).1

/-- A single or double quote, as in the regex class of quote characters. -/
def isQuoteChar (c : Char) : Bool := c == '"' || c == '\x27'

/-- The negated character class (no quotes, no closing parenthesis) of the
URL-capturing regex groups. -/
def isGroupChar (c : Char) : Bool := c != '"' && c != '\x27' && c != ')'

/-- Tail of the `@import` regex at a position: an optional quote, the greedy
one-or-more group of `isGroupChar` characters, and an optional closing quote,
with regex backtracking over the optional quotes.  Returns the consumed
characters and the captured group. -/
def quotedGroup (l : List Char) : Option (List Char × List Char) :=
  let core := fun (l2 : List Char) (q : List Char) =>
    let g := l2.takeWhile isGroupChar
    if g.isEmpty then none
    else
      let rest := l2.drop g.length
      let tq :=
        match rest.head? with
        | some c => if isQuoteChar c then [c] else []
        | none => ([] : List Char)
      some (q ++ g ++ tq, g)
  match l.head? with
  | some c =>
    if isQuoteChar c then
      match core (l.drop 1) [c] with
      | some r => some r
      | none => core l []
    else core l []
  | none => none

/-- The optional `url(` literal of the `@import` regex: prefer to consume it,
falling back (regex backtracking) to treating those characters as part of the
captured group. -/
def importTail (l : List Char) : Option (List Char × List Char) :=
  if startsWithChars l "url(".data then
    match quotedGroup (l.drop 4) with
    | some (consumed, g) => some ("url(".data ++ consumed, g)
    | none => quotedGroup l
  else quotedGroup l

/-- Backtracking for a greedy whitespace run followed by `tail`: try consuming
`k` whitespace characters of `wsAll`, counting down, as a regex engine does. -/
def wsTryK (tail : List Char → Option (List Char × List Char))
    (wsAll rest : List Char) : Nat → Option (List Char × List Char)
  | 0 =>
    match tail (wsAll ++ rest) with
    | some (consumed, g) => some (consumed, g)
    | none => none
  | k + 1 =>
    match tail (wsAll.drop (k + 1) ++ rest) with
    | some (consumed, g) => some (wsAll.take (k + 1) ++ consumed, g)
    | none => wsTryK tail wsAll rest k

/-- One attempted match of the `import_regex` of clone_webpage.py line 53
(`@import`, optional whitespace, optional `url(`, optionally quoted URL group)
at the start of `l`: returns (whole match, group 2) on success. -/
def matchImportAt (l : List Char) : Option (List Char × List Char) :=
  if startsWithChars l "@import".data then
    let rest := l.drop 7
    let ws := rest.takeWhile isPySpace
    let rest2 := rest.drop ws.length
    match wsTryK importTail ws rest2 ws.length with
    | some (consumed, g) => some ("@import".data ++ consumed, g)
    | none => none
  else none

/-- Tail of the `url_regex` after the URL group position: optional quote,
group, optional quote, optional whitespace, and the mandatory closing
parenthesis, with regex backtracking over the optional quotes. -/
def urlTail (l : List Char) : Option (List Char × List Char) :=
  let closeAfter := fun (rest : List Char) =>
    let ws2 := rest.takeWhile isPySpace
    match (rest.drop ws2.length).head? with
    | some c => if c = ')' then some (ws2 ++ [')']) else none
    | none => none
  let core := fun (l2 : List Char) (q : List Char) =>
    let g := l2.takeWhile isGroupChar
    if g.isEmpty then none
    else
      let rest := l2.drop g.length
      let withQ :=
        match rest.head? with
        | some c =>
          if isQuoteChar c then
            match closeAfter (rest.drop 1) with
            | some cp => some (q ++ g ++ c :: cp, g)
            | none => none
          else none
        | none => none
      match withQ with
      | some r => some r
      | none =>
        match closeAfter rest with
        | some cp => some (q ++ g ++ cp, g)
        | none => none
  match l.head? with
  | some c =>
    if isQuoteChar c then
      match core (l.drop 1) [c] with
      | some r => some r
      | none => core l []
    else core l []
  | none => none

/-- One attempted match of the `url_regex` of clone_webpage.py line 60
(`url`, optional whitespace, parenthesis, optional whitespace, optionally
quoted URL group, closing parenthesis) at the start of `l`: returns
(whole match, group 1) on success. -/
def matchUrlAt (l : List Char) : Option (List Char × List Char) :=
  if startsWithChars l "url".data then
    let r1 := l.drop 3
    let ws1 := r1.takeWhile isPySpace
    let r2 := r1.drop ws1.length
    match r2.head? with
    | some c =>
      if c = '(' then
        let r3 := r2.drop 1
        let ws2 := r3.takeWhile isPySpace
        match wsTryK urlTail ws2 (r3.drop ws2.length) ws2.length with
        | some (consumed, g) => some ("url".data ++ ws1 ++ '(' :: consumed, g)
        | none => none
      else none
    | none => none
  else none

/-- `re.finditer` driver: scan left to right, emitting non-overlapping
matches and resuming after each whole match; fuel-bounded for kernel
evaluation (every emitted match is non-empty). -/
def findMatchesAux (matchAt : List Char → Option (List Char × List Char)) :
    Nat → List Char → List (List Char × List Char)
  | 0, _ => []
  | fuel + 1, l =>
    match l with
    | [] => []
    | _ :: rest =>
      match matchAt l with
      | some (g0, g) => (g0, g) :: findMatchesAux matchAt fuel (l.drop g0.length)
      | none => findMatchesAux matchAt fuel rest

/-- All matches of the `@import` regex, as (whole match, group 2) pairs. -/
def findImports (l : List Char) : List (List Char × List Char) :=
  findMatchesAux matchImportAt l.length l

/-- All matches of the `url(...)` regex, as (whole match, group 1) pairs. -/
def findUrls (l : List Char) : List (List Char × List Char) :=
  findMatchesAux matchUrlAt l.length l

/-- One iteration of the `@import` loop of `process_css` (clone_webpage.py
lines 54-58): join the captured URL against the stylesheet's own URL, download
it, and on success replace every occurrence of the whole matched text with
`@import "<local name>"`. -/
def importStep (t : Transport) (w : WriteOracle) (cssUrl : String)
    (acc : List Char × Session) (m : List Char × List Char) : List Char × Session :=
  let import_url := urljoin cssUrl (String.mk m.2)
  let r := download_resource t w import_url acc.2
  match r.1 with
  | some local_import =>
    (replaceAll acc.1 m.1 ("@import \"".data ++ local_import.data ++ ['"']), r.2)
  | none => (acc.1, r.2)

/-- One iteration of the `url(...)` loop of `process_css` (clone_webpage.py
lines 61-68): skip `data:`/`#` references, otherwise join, download, and on
success replace every occurrence of the captured URL text with the local
name. -/
def urlStep (t : Transport) (w : WriteOracle) (cssUrl : String)
    (acc : List Char × Session) (m : List Char × List Char) : List Char × Session :=
  if startsWithChars m.2 "data:".data || startsWithChars m.2 ['#'] then acc
  else
    let resource_url := urljoin cssUrl (String.mk m.2)
    let r := download_resource t w resource_url acc.2
    match r.1 with
    | some local_resource => (replaceAll acc.1 m.2 local_resource.data, r.2)
    | none => (acc.1, r.2)

/-- Model of `process_css` (clone_webpage.py lines 51-70).  The matches of
each regex are computed once (as `finditer` does, over the string the iterator
was created on) and the replacements are folded over the evolving text. -/
def process_css (t : Transport) (w : WriteOracle) (cssContent cssUrl : String)
    (s : Session) : String × Session :=
  let step1 := (findImports cssContent.data).foldl (importStep t w cssUrl) (cssContent.data, s)
  let step2 := (findUrls step1.1).foldl (urlStep t w cssUrl) step1
  (String.mk step2.1, step2.2)

/-- The rewritten stylesheet text returned by `process_css`, which does not
depend on the session state passed in. -/
def processCssText (t : Transport) (w : WriteOracle) (cssContent cssUrl : String) : String :=
  (process_css t w cssContent cssUrl emptySession).1

/-- A Python value as compared by `in` / `==` in the allow-list test of the
final link loop: BeautifulSoup stores `rel` of a `<link>` as a token list
(`cdata_list_attributes`), while the allow-list holds plain strings; Python
equality between values of different shapes is `False`. -/
inductive PyVal where
  | pyNone : PyVal
  | pyStr : String → PyVal
  | pyStrList : List String → PyVal
deriving DecidableEq, Repr

/-- Python `==` on the modelled values. -/
def pyEq : PyVal → PyVal → Bool
  | PyVal.pyNone, PyVal.pyNone => true
  | PyVal.pyStr a, PyVal.pyStr b => a == b
  | PyVal.pyStrList a, PyVal.pyStrList b => a == b
  | _, _ => false

/-- Python `v in l` membership by `==`. -/
def pyIn (v : PyVal) (l : List PyVal) : Bool := l.any (pyEq v)

/-- A `<link>` element: `rel` as the token list BeautifulSoup stores (absent
attribute is `none`), plus `href`. -/
structure LinkElem where
  rel : Option (List String)
  href : Option String
deriving DecidableEq, Repr

/-- A `<style>` element; `content` models `style.string` (absent when the
element has no single text child). -/
structure StyleElem where
  content : Option String
deriving DecidableEq, Repr

/-- A `<script>` element; only its `src` attribute is relevant. -/
structure ScriptElem where
  src : Option String
deriving DecidableEq, Repr

/-- An `<img>` element with `src` and `srcset` attributes. -/
structure ImgElem where
  src : Option String
  srcset : Option String
deriving DecidableEq, Repr

/-- The parsed document, as the lists the five `find_all` loops iterate
over (each in document order). -/
structure Doc where
  links : List LinkElem
  styles : List StyleElem
  scripts : List ScriptElem
  imgs : List ImgElem
deriving DecidableEq, Repr

/-- State-threading map over a list, mirroring a Python `for` loop that
mutates each element and the shared session. -/
def mapState {α σ : Type} (f : α → σ → α × σ) : List α → σ → List α × σ
  | [], s => ([], s)
  | a :: as, s =>
    let r := f a s
    let rs := mapState f as r.2
    (r.1 :: rs.1, rs.2)

/-- `find_all` with a `rel` keyword: BeautifulSoup matches a searched string
against any token of a multi-valued attribute. -/
def isStylesheetLink (l : LinkElem) : Bool :=
  match l.rel with
  | some toks => toks.contains "stylesheet"
  | none => false

/-- The stylesheet filename computed at clone_webpage.py line 92: `re.sub`
over the basename of the stylesheet URL path, defaulting to `styles.css`. -/
def cssFilenameOf (cssUrl : String) : String :=
  let b := subFilenameChars (basenameChars (urlparse cssUrl).path.data)
  if b.isEmpty then "styles.css" else String.mk b

/-- Body of the stylesheet-link loop (clone_webpage.py lines 85-98) for one
link: fetch the stylesheet (without any status check: `raise_for_status` is
not called on `css_response`), run `process_css` on the body, write the
processed text under the derived name, and set `href`; a network or write
exception is caught by the per-link handler, leaving the link unchanged. -/
def processStyleLink (t : Transport) (w : WriteOracle) (pageUrl : String)
    (link : LinkElem) (s : Session) : LinkElem × Session :=
  match link.href with
  | none => (link, s)
  | some href0 =>
    if href0 == "" then (link, s)
    else
      let css_url := urljoin pageUrl href0
      let s1 : Session := { s with fetchLog := s.fetchLog ++ [css_url] }
      match t css_url with
      | none => (link, s1)
      | some r =>
        let pr := process_css t w r.body css_url s1
        let css_filename := cssFilenameOf css_url
        if w css_filename then
          ({ link with href := some css_filename },
           { pr.2 with files := pr.2.files ++ [(css_filename, pr.1)] })
        else (link, pr.2)

/-- Body of the inline-style loop (clone_webpage.py lines 101-103): non-empty
`style.string` content is passed through `process_css` with the page URL. -/
def processInlineStyle (t : Transport) (w : WriteOracle) (pageUrl : String)
    (st : StyleElem) (s : Session) : StyleElem × Session :=
  match st.content with
  | none => (st, s)
  | some c =>
    if c == "" then (st, s)
    else
      let pr := process_css t w c pageUrl s
      (⟨some pr.1⟩, pr.2)

/-- Body of the script loop (clone_webpage.py lines 106-112): join `src`
against the page URL, download, and rewrite `src` on success. -/
def processScript (t : Transport) (w : WriteOracle) (pageUrl : String)
    (sc : ScriptElem) (s : Session) : ScriptElem × Session :=
  match sc.src with
  | none => (sc, s)
  | some u =>
    if u == "" then (sc, s)
    else
      let js_url := urljoin pageUrl u
      let r := download_resource t w js_url s
      match r.1 with
      | some local_js => (⟨some local_js⟩, r.2)
      | none => (sc, r.2)

/-- Python `img.get` of `src` or else `srcset`, followed by the loop's
`if img_url:` truthiness test. -/
def pyFirstTruthy (a b : Option String) : Option String :=
  match a with
  | some sa =>
    if sa == "" then
      match b with
      | some sb => if sb == "" then none else some sb
      | none => none
    else some sa
  | none =>
    match b with
    | some sb => if sb == "" then none else some sb
    | none => none

/-- The candidate reduction at clone_webpage.py line 118: split at the first
comma, strip, split at the first space. -/
def firstCandidate (v : String) : String :=
  String.mk (takeUntilChar ' ' (stripChars (takeUntilChar ',' v.data)))

/-- Body of the image loop (clone_webpage.py lines 115-121): take `src` or
the first `srcset` candidate, join, download, and set `src` on success
(`srcset` itself is never rewritten). -/
def processImg (t : Transport) (w : WriteOracle) (pageUrl : String)
    (im : ImgElem) (s : Session) : ImgElem × Session :=
  match pyFirstTruthy im.src im.srcset with
  | none => (im, s)
  | some v =>
    let img_url := urljoin pageUrl (firstCandidate v)
    let r := download_resource t w img_url s
    match r.1 with
    | some local_img => ({ im with src := some local_img }, r.2)
    | none => (im, r.2)

/-- The allow-list of clone_webpage.py line 126, a list of plain strings. -/
def relAllowList : List PyVal :=
  [PyVal.pyStr "icon", PyVal.pyStr "shortcut icon", PyVal.pyStr "manifest",
   PyVal.pyStr "apple-touch-icon", PyVal.pyStr "stylesheet", PyVal.pyStr "preload",
   PyVal.pyStr "dns-prefetch", PyVal.pyStr "preconnect"]

/-- The `rel` attribute as the Python value `link.get` returns: `None` or the
stored token list. -/
def relValue (l : LinkElem) : PyVal :=
  match l.rel with
  | none => PyVal.pyNone
  | some toks => PyVal.pyStrList toks

/-- Body of the final link loop (clone_webpage.py lines 124-130): when `href`
is truthy and the `rel` value is `in` the allow-list, download and rewrite
`href`. -/
def processOtherLink (t : Transport) (w : WriteOracle) (pageUrl : String)
    (link : LinkElem) (s : Session) : LinkElem × Session :=
  match link.href with
  | none => (link, s)
  | some href0 =>
    if href0 == "" then (link, s)
    else if pyIn (relValue link) relAllowList then
      let joined := urljoin pageUrl href0
      let r := download_resource t w joined s
      match r.1 with
      | some local_file => ({ link with href := some local_file }, r.2)
      | none => (link, r.2)
    else (link, s)

/-- Outcome of one `clone_webpage` run: the final document, the recorded
side effects, and whether the success message was printed (the outer
`except` swallows fatal errors, so the Python function itself always
returns `None`). -/
structure RunResult where
  doc : Doc
  session : Session
  success : Bool
deriving DecidableEq, Repr

/-- Model of `clone_webpage` (clone_webpage.py lines 72-142).  `mkdirOk`
models whether `os.makedirs` succeeds; rendering is not modelled (the parsed
document is the input); the five loops run in source order; finally
`index.html` is written (serialized tree content not modelled).  An exception
from `makedirs` or the `index.html` write reaches the outer handler: the rest
of the body is skipped and no success message is printed. -/
def clone_webpage (t : Transport) (w : WriteOracle) (mkdirOk : Bool)
    (pageUrl : String) (doc0 : Doc) : RunResult :=
  if !mkdirOk then ⟨doc0, emptySession, false⟩
  else
    let r1 := mapState
      (fun l s => if isStylesheetLink l then processStyleLink t w pageUrl l s else (l, s))
      doc0.links emptySession
    let r2 := mapState (processInlineStyle t w pageUrl) doc0.styles r1.2
    let r3 := mapState (processScript t w pageUrl) doc0.scripts r2.2
    let r4 := mapState (processImg t w pageUrl) doc0.imgs r3.2
    let r5 := mapState (processOtherLink t w pageUrl) r1.1 r4.2
    let doc1 : Doc := ⟨r5.1, r2.1, r3.1, r4.1⟩
    if w "index.html" then
      ⟨doc1, { r5.2 with files := r5.2.files ++ [("index.html", "")] }, true⟩
    else ⟨doc1, r5.2, false⟩

/-- The outcome of the stylesheet-link loop for one link, as a function of
the oracles only (the session affects only the recorded side effects). -/
def linkRewrite (t : Transport) (w : WriteOracle) (pageUrl : String)
    (link : LinkElem) : LinkElem :=
  if isStylesheetLink link then
    match link.href with
    | none => link
    | some href0 =>
      if href0 == "" then link
      else
        let css_url := urljoin pageUrl href0
        match t css_url with
        | none => link
        | some _ =>
          let css_filename := cssFilenameOf css_url
          if w css_filename then { link with href := some css_filename } else link
  else link

/-- The outcome of the inline-style loop for one style element. -/
def styleRewrite (t : Transport) (w : WriteOracle) (pageUrl : String)
    (st : StyleElem) : StyleElem :=
  match st.content with
  | none => st
  | some c =>
    if c == "" then st else ⟨some (processCssText t w c pageUrl)⟩

/-- The outcome of the script loop for one script element. -/
def scriptRewrite (t : Transport) (w : WriteOracle) (pageUrl : String)
    (sc : ScriptElem) : ScriptElem :=
  match sc.src with
  | none => sc
  | some u =>
    if u == "" then sc
    else
      match downloadResult t w (urljoin pageUrl u) with
      | some local_js => ⟨some local_js⟩
      | none => sc

/-- The outcome of the image loop for one image element. -/
def imgRewrite (t : Transport) (w : WriteOracle) (pageUrl : String)
    (im : ImgElem) : ImgElem :=
  match pyFirstTruthy im.src im.srcset with
  | none => im
  | some v =>
    match downloadResult t w (urljoin pageUrl (firstCandidate v)) with
    | some local_img => { im with src := some local_img }
    | none => im

/-- A disk on which every write succeeds. -/
def alwaysWrite : WriteOracle := fun _ => true

/-- Network serving one PNG at a single address. -/
def c1Transport : Transport := fun u =>
  if u == "https://h.com/a.png" then some ⟨200, "image/png", "PNG"⟩ else none

/-- A document whose two images reference the same canonical URL. -/
def c1Doc : Doc :=
  ⟨[], [], [], [⟨some "https://h.com/a.png", none⟩, ⟨some "https://h.com/a.png", none⟩]⟩

/-- Network serving two distinct PNGs whose URL paths share the basename
`s.png`. -/
def c2Transport : Transport := fun u =>
  if u == "https://a.com/img/s.png" then some ⟨200, "image/png", "P1"⟩
  else if u == "https://b.com/pics/s.png" then some ⟨200, "image/png", "P2"⟩
  else none

/-- A document referencing the two same-basename resources. -/
def c2Doc : Doc :=
  ⟨[], [], [], [⟨some "https://a.com/img/s.png", none⟩, ⟨some "https://b.com/pics/s.png", none⟩]⟩

/-- Network for the filename-assignment witness: one reachable PNG. -/
def c2wTransport : Transport := fun u =>
  if u == "https://a.com/img/s.png" then some ⟨200, "image/png", "P1"⟩ else none

/-- Network with one reachable script; every other URL errors out. -/
def c3Transport : Transport := fun u =>
  if u == "https://p.com/a.js" then some ⟨200, "application/javascript", "JS"⟩ else none

/-- A document mixing one reachable and one unreachable script reference. -/
def c3Doc : Doc :=
  ⟨[], [], [⟨some "a.js"⟩, ⟨some "https://dead.com/b.js"⟩], []⟩

/-- Network for the cyclic-import scenario: stylesheet A imports
`sub/b.css`, whose content imports `/a.css` (that is, A) back. -/
def c4Transport : Transport := fun u =>
  if u == "https://site/a.css" then some ⟨200, "text/css", "@import \"sub/b.css\""⟩
  else if u == "https://site/sub/b.css" then some ⟨200, "text/css", "@import \"/a.css\""⟩
  else none

/-- A document with the single stylesheet link to A. -/
def c4Doc : Doc := ⟨[⟨some ["stylesheet"], some "a.css"⟩], [], [], []⟩

/-- The completed cyclic-import run. -/
def c4Run : RunResult := clone_webpage c4Transport alwaysWrite true "https://site/" c4Doc

/-- Network that answers the page's own URL (with fragment) with HTML. -/
def c5Transport : Transport := fun u =>
  if u == "https://ex.com/page.html#top" then some ⟨200, "text/html", "PAGE"⟩ else none

/-- A document whose image reference is fragment-only. -/
def c5Doc : Doc := ⟨[], [], [], [⟨some "#top", none⟩]⟩

/-- Network answering the stylesheet URL with an HTTP 404 and an error body. -/
def c6Transport : Transport := fun u =>
  if u == "https://site/css/s.css" then some ⟨404, "text/html", "Not Found"⟩ else none

/-- A document with one stylesheet link whose fetch will return 404. -/
def c6Doc : Doc := ⟨[⟨some ["stylesheet"], some "css/s.css"⟩], [], [], []⟩

/-- Network for the HTTP-error witness: a 404 at a resource address. -/
def c6wTransport : Transport := fun u =>
  if u == "https://site/p.png" then some ⟨404, "", "NF"⟩ else none

/-- Network with one reachable script. -/
def c7Transport : Transport := fun u =>
  if u == "https://site/app.js" then some ⟨200, "application/javascript", "JS"⟩ else none

/-- A disk on which writing `app.js` fails and every other write succeeds. -/
def c7Write : WriteOracle := fun f => !(f == "app.js")

/-- A document with the single script whose resource write will fail. -/
def c7Doc : Doc := ⟨[], [], [⟨some "app.js"⟩], []⟩

/-- Network serving the favicon that the allow-list loop is meant to fetch. -/
def c8Transport : Transport := fun u =>
  if u == "https://site/favicon.ico" then some ⟨200, "image/png", "ICO"⟩ else none

/-- A document with one icon link (BeautifulSoup stores its rel as a token
list). -/
def c8Doc : Doc := ⟨[⟨some ["icon"], some "favicon.ico"⟩], [], [], []⟩

/-- Network serving the image referenced from the stylesheet. -/
def c9Transport : Transport := fun u =>
  if u == "https://site/img/x.png" then some ⟨200, "image/png", "PNG"⟩ else none

/-- A stylesheet whose comment repeats the exact URL text matched inside
`url(...)`. -/
def c9Css : String := "/* see img/x.png */ background:url(img/x.png);"

/-- Network serving two distinct URLs with the same path basename and the
same content type. -/
def c10Transport : Transport := fun u =>
  if u == "https://a.com/x/s.png" || u == "https://b.com/y/s.png" then
    some ⟨200, "image/png", "IMG"⟩
  else none

example : urljoin "https://site/" "a.css" = "https://site/a.css" := by decide

example : urljoin "https://site/a.css" "sub/b.css" = "https://site/sub/b.css" := by decide

example : urljoin "https://site/sub/b.css" "/a.css" = "https://site/a.css" := by decide

example : urljoin "https://ex.com/page.html" "#top" = "https://ex.com/page.html#top" := by decide

example : urljoin "https://p.com/" "https://h.com/a.png" = "https://h.com/a.png" := by decide

example : urljoin "https://p.com/" "data:image/png;base64,AA" = "data:image/png;base64,AA" := by decide

example : findImports "@import url(\"a.css\");".data =
    [("@import url(\"a.css\"".data, "a.css".data)] := by decide

example : findImports "@import url(b.css)".data =
    [("@import url(b.css".data, "b.css".data)] := by decide

example : findImports "@import   \"x y.css\" screen;".data =
    [("@import   \"x y.css\"".data, "x y.css".data)] := by decide

example : findImports "@import a.css; body".data =
    [("@import a.css; body".data, "a.css; body".data)] := by decide

example : findImports "@import url()".data =
    [("@import url(".data, "url(".data)] := by decide

example : findImports "@import \"\"".data =
    [("@import \"".data, " ".data)] := by decide

example : findUrls "url( a.png )".data =
    [("url( a.png )".data, "a.png ".data)] := by decide

example : findUrls "url(\"q.png\") url(r.gif)".data =
    [("url(\"q.png\")".data, "q.png".data), ("url(r.gif)".data, "r.gif".data)] := by decide

example : findUrls "body: url (s.svg); url(#f) url(data:x,y)".data =
    [("url (s.svg)".data, "s.svg".data), ("url(#f)".data, "#f".data),
     ("url(data:x,y)".data, "data:x,y".data)] := by decide

example : findUrls "url(a\"b)".data = [] := by decide

example : findUrls "xurl(c.png)".data = [("url(c.png)".data, "c.png".data)] := by decide

theorem download_resource_fst (t : Transport) (w : WriteOracle) (url : String)
    (s : Session) : (download_resource t w url s).1 = downloadResult t w url := by
  unfold downloadResult download_resource
  dsimp only
  repeat' first
    | rfl
    | split

theorem importStep_fst (t : Transport) (w : WriteOracle) (cssUrl : String)
    (a : List Char) (s s' : Session) (m : List Char × List Char) :
    (importStep t w cssUrl (a, s) m).1 = (importStep t w cssUrl (a, s') m).1 := by
  unfold importStep
  dsimp only
  rw [show (download_resource t w (urljoin cssUrl (String.mk m.2)) s).1
      = downloadResult t w (urljoin cssUrl (String.mk m.2)) from download_resource_fst ..,
    show (download_resource t w (urljoin cssUrl (String.mk m.2)) s').1
      = downloadResult t w (urljoin cssUrl (String.mk m.2)) from download_resource_fst ..]
  cases downloadResult t w (urljoin cssUrl (String.mk m.2)) <;> rfl

theorem urlStep_fst (t : Transport) (w : WriteOracle) (cssUrl : String)
    (a : List Char) (s s' : Session) (m : List Char × List Char) :
    (urlStep t w cssUrl (a, s) m).1 = (urlStep t w cssUrl (a, s') m).1 := by
  unfold urlStep
  dsimp only
  split
  · rfl
  · rw [show (download_resource t w (urljoin cssUrl (String.mk m.2)) s).1
        = downloadResult t w (urljoin cssUrl (String.mk m.2)) from download_resource_fst ..,
      show (download_resource t w (urljoin cssUrl (String.mk m.2)) s').1
        = downloadResult t w (urljoin cssUrl (String.mk m.2)) from download_resource_fst ..]
    cases downloadResult t w (urljoin cssUrl (String.mk m.2)) <;> rfl

theorem foldl_fst_indep {M : Type} (F : List Char × Session → M → List Char × Session)
    (hF : ∀ a s s' m, (F (a, s) m).1 = (F (a, s') m).1) :
    ∀ (ms : List M) (a : List Char) (s s' : Session),
      (ms.foldl F (a, s)).1 = (ms.foldl F (a, s')).1 := by
  intro ms
  induction ms with
  | nil => intro a s s'; rfl
  | cons m ms ih =>
    intro a s s'
    simp only [List.foldl_cons]
    have h1 : (F (a, s) m).1 = (F (a, s') m).1 := hF a s s' m
    have e1 : F (a, s) m = ((F (a, s) m).1, (F (a, s) m).2) := rfl
    have e2 : F (a, s') m = ((F (a, s') m).1, (F (a, s') m).2) := rfl
    rw [e1, e2, h1]
    exact ih (F (a, s') m).1 (F (a, s) m).2 (F (a, s') m).2

theorem process_css_fst (t : Transport) (w : WriteOracle) (cssContent cssUrl : String)
    (s : Session) :
    (process_css t w cssContent cssUrl s).1 = processCssText t w cssContent cssUrl := by
  unfold processCssText process_css
  dsimp only
  have h1 : ((findImports cssContent.data).foldl (importStep t w cssUrl) (cssContent.data, s)).1
      = ((findImports cssContent.data).foldl (importStep t w cssUrl) (cssContent.data, emptySession)).1 :=
    foldl_fst_indep _ (importStep_fst t w cssUrl) _ _ _ _
  set p := (findImports cssContent.data).foldl (importStep t w cssUrl) (cssContent.data, s) with hp
  set q := (findImports cssContent.data).foldl (importStep t w cssUrl) (cssContent.data, emptySession) with hq
  have ep : p = (p.1, p.2) := rfl
  have eq' : q = (q.1, q.2) := rfl
  rw [ep, eq', h1]
  have h2 : ((findUrls q.1).foldl (urlStep t w cssUrl) (q.1, p.2)).1
      = ((findUrls q.1).foldl (urlStep t w cssUrl) (q.1, q.2)).1 :=
    foldl_fst_indep _ (urlStep_fst t w cssUrl) _ _ _ _
  rw [h2]

theorem styleLinkLoop_fst (t : Transport) (w : WriteOracle) (pageUrl : String)
    (link : LinkElem) (s : Session) :
    ((if isStylesheetLink link then processStyleLink t w pageUrl link s
      else (link, s)) : LinkElem × Session).1 = linkRewrite t w pageUrl link := by
  unfold linkRewrite processStyleLink
  split
  · cases link.href with
    | none => rfl
    | some href0 =>
      dsimp only
      split
      · rfl
      · cases t (urljoin pageUrl href0) with
        | none => rfl
        | some r => dsimp only; split <;> rfl
  · rfl

theorem processInlineStyle_fst (t : Transport) (w : WriteOracle) (pageUrl : String)
    (st : StyleElem) (s : Session) :
    (processInlineStyle t w pageUrl st s).1 = styleRewrite t w pageUrl st := by
  unfold processInlineStyle styleRewrite
  cases st.content with
  | none => rfl
  | some c =>
    dsimp only
    split
    · rfl
    · dsimp only
      rw [process_css_fst]

theorem processScript_fst (t : Transport) (w : WriteOracle) (pageUrl : String)
    (sc : ScriptElem) (s : Session) :
    (processScript t w pageUrl sc s).1 = scriptRewrite t w pageUrl sc := by
  unfold processScript scriptRewrite
  cases sc.src with
  | none => rfl
  | some u =>
    dsimp only
    split
    · rfl
    · rw [show (download_resource t w (urljoin pageUrl u) s).1
          = downloadResult t w (urljoin pageUrl u) from download_resource_fst ..]
      cases downloadResult t w (urljoin pageUrl u) <;> rfl

theorem processImg_fst (t : Transport) (w : WriteOracle) (pageUrl : String)
    (im : ImgElem) (s : Session) :
    (processImg t w pageUrl im s).1 = imgRewrite t w pageUrl im := by
  unfold processImg imgRewrite
  cases pyFirstTruthy im.src im.srcset with
  | none => rfl
  | some v =>
    dsimp only
    rw [show (download_resource t w (urljoin pageUrl (firstCandidate v)) s).1
        = downloadResult t w (urljoin pageUrl (firstCandidate v)) from download_resource_fst ..]
    cases downloadResult t w (urljoin pageUrl (firstCandidate v)) <;> rfl

/-- The token-list stored by BeautifulSoup for `rel` never compares equal to
any plain string of the allow-list, so the `in` test of line 126 is `False`
for every link. -/
theorem pyIn_relValue_false (link : LinkElem) :
    pyIn (relValue link) relAllowList = false := by
  cases h : link.rel <;> simp [relValue, h, pyIn, relAllowList, pyEq]

/-- The final link loop of clone_webpage.py lines 124-130 never modifies a
link nor the session. -/
theorem processOtherLink_id (t : Transport) (w : WriteOracle) (pageUrl : String)
    (link : LinkElem) (s : Session) :
    processOtherLink t w pageUrl link s = (link, s) := by
  unfold processOtherLink
  cases link.href with
  | none => rfl
  | some href0 =>
    dsimp only
    split
    · rfl
    · rw [pyIn_relValue_false]
      rfl

theorem mapState_fst_map {α σ : Type} (f : α → σ → α × σ) (g : α → α)
    (hf : ∀ a s, (f a s).1 = g a) :
    ∀ (l : List α) (s : σ), (mapState f l s).1 = l.map g := by
  intro l
  induction l with
  | nil => intro s; rfl
  | cons a as ih =>
    intro s
    simp only [mapState, List.map_cons]
    rw [hf a s, ih (f a s).2]

theorem mapState_id {α σ : Type} (f : α → σ → α × σ)
    (hf : ∀ a s, f a s = (a, s)) :
    ∀ (l : List α) (s : σ), mapState f l s = (l, s) := by
  intro l
  induction l with
  | nil => intro s; rfl
  | cons a as ih =>
    intro s
    simp only [mapState]
    rw [hf a s]
    dsimp only
    rw [ih s]

/-- The final document of a run with a successful `makedirs` is the
independent per-element rewrite of each of the four element lists. -/
theorem clone_webpage_doc (t : Transport) (w : WriteOracle) (pageUrl : String)
    (doc0 : Doc) :
    (clone_webpage t w true pageUrl doc0).doc =
      ⟨doc0.links.map (linkRewrite t w pageUrl),
       doc0.styles.map (styleRewrite t w pageUrl),
       doc0.scripts.map (scriptRewrite t w pageUrl),
       doc0.imgs.map (imgRewrite t w pageUrl)⟩ := by
  unfold clone_webpage
  rw [if_neg (by decide : ¬((!true) = true))]
  have hlinks := mapState_fst_map
    (fun l s => if isStylesheetLink l then processStyleLink t w pageUrl l s else (l, s))
    (linkRewrite t w pageUrl) (styleLinkLoop_fst t w pageUrl) doc0.links emptySession
  have hothers := mapState_id (processOtherLink t w pageUrl)
    (processOtherLink_id t w pageUrl)
  split <;>
  · dsimp only
    rw [hothers]
    dsimp only
    rw [hlinks,
      mapState_fst_map _ _ (processInlineStyle_fst t w pageUrl) doc0.styles _,
      mapState_fst_map _ _ (processScript_fst t w pageUrl) doc0.scripts _,
      mapState_fst_map _ _ (processImg_fst t w pageUrl) doc0.imgs _]

/-- Success flag of a successful-download branch: the filename returned by
`download_resource` is exactly the derived filename of the URL path and the
response content type. -/
theorem download_success_filename (t : Transport) (w : WriteOracle)
    (u : String) (s : Session) (r : Response) (f : String)
    (hr : t u = some r) (hd : (download_resource t w u s).1 = some f) :
    f = derive_filename (urlparse u).path r.contentType := by
  unfold download_resource at hd
  dsimp only at hd
  split at hd
  · exact absurd hd (by simp)
  · split at hd
    · exact absurd hd (by simp)
    · rw [hr] at hd
      dsimp only at hd
      split at hd
      · exact absurd hd (by simp)
      · split at hd
        · have h' := hd
          simp only [Prod.fst] at h'
          exact (Option.some.inj h').symm
        · exact absurd hd (by simp)

/-- The extension computed by `splitext` depends only on the basename of the
path. -/
theorem splitextExt_eq_of_basename_eq (l1 l2 : List Char)
    (h : basenameChars l1 = basenameChars l2) : splitextExt l1 = splitextExt l2 := by
  unfold splitextExt
  rw [h]

/-- The derived filename depends only on the basename of the URL path and the
content type. -/
theorem derive_filename_eq_of_basename_eq (p1 p2 ct : String)
    (h : basenameChars p1.data = basenameChars p2.data) :
    derive_filename p1 ct = derive_filename p2 ct := by
  unfold derive_filename
  rw [splitextExt_eq_of_basename_eq p1.data p2.data h, h]

/-- C1: the claim states that a document referencing the same canonical URL
N≥2 times causes exactly one resource fetch.  The code has no dedup cache:
with two image references to `https://h.com/a.png` the session performs two
`requests.get` invocations for that URL (one per reference), although both
references are indeed rewritten to the same local filename `a.png`.  This
confirms the fetch-count part of the claim false on the code, matching the
spec's own design note that the source's per-call independent downloads are a
bug. -/
theorem c1_duplicate_reference_double_fetch :
    (clone_webpage c1Transport alwaysWrite true "https://p.com/" c1Doc).session.fetchLog
      = ["https://h.com/a.png", "https://h.com/a.png"]
    ∧ (clone_webpage c1Transport alwaysWrite true "https://p.com/" c1Doc).doc.imgs
      = [⟨some "a.png", none⟩, ⟨some "a.png", none⟩] := by decide

/-- C2 counterexample: the claim states that locally assigned filenames are
pairwise distinct, with extension/suffix collision resolution.  The code has
no `usedFilenames` set and no suffixing: the two distinct canonical URLs
`https://a.com/img/s.png` and `https://b.com/pics/s.png` are both assigned
the filename `s.png`, and the second write overwrites the first. -/
theorem c2_filename_collision :
    ("https://a.com/img/s.png" ≠ "https://b.com/pics/s.png")
    ∧ (clone_webpage c2Transport alwaysWrite true "https://p.com/" c2Doc).doc.imgs
      = [⟨some "s.png", none⟩, ⟨some "s.png", none⟩]
    ∧ (clone_webpage c2Transport alwaysWrite true "https://p.com/" c2Doc).session.files
      = [("s.png", "P1"), ("s.png", "P2"), ("index.html", "")] := by decide

/-- C2 (amended): a successfully downloaded resource is always assigned
exactly the name derived from the URL path basename and the response content
type, with no collision resolution of any kind: no `usedFilenames` lookup,
no appended extension, no numeric suffix. -/
theorem c2_amended_filename_assignment (t : Transport) (w : WriteOracle)
    (u : String) (s : Session) (r : Response) (f : String)
    (hr : t u = some r) (hd : (download_resource t w u s).1 = some f) :
    f = derive_filename (urlparse u).path r.contentType :=
  download_success_filename t w u s r f hr hd

/-- Witness for the amended C2 at a concrete download. -/
theorem c2_amended_witness :
    (download_resource c2wTransport alwaysWrite "https://a.com/img/s.png" emptySession).1
      = some "s.png"
    ∧ "s.png" = derive_filename (urlparse "https://a.com/img/s.png").path "image/png" := by
  refine ⟨by decide, ?_⟩
  exact c2_amended_filename_assignment c2wTransport alwaysWrite "https://a.com/img/s.png"
    emptySession ⟨200, "image/png", "P1"⟩ "s.png" (by decide) (by decide)

/-- C3: every run over a document completes (the model is a total function)
and each element list of the output document is an independent per-element
map: a script or image whose own download fails keeps its original remote
reference, one whose download succeeds is rewritten to the returned local
filename, and no element's outcome depends on any other element. -/
theorem c3_failure_isolation (t : Transport) (w : WriteOracle) (pageUrl : String)
    (doc0 : Doc) :
    ((clone_webpage t w true pageUrl doc0).doc.links
        = doc0.links.map (linkRewrite t w pageUrl)
      ∧ (clone_webpage t w true pageUrl doc0).doc.styles
        = doc0.styles.map (styleRewrite t w pageUrl)
      ∧ (clone_webpage t w true pageUrl doc0).doc.scripts
        = doc0.scripts.map (scriptRewrite t w pageUrl)
      ∧ (clone_webpage t w true pageUrl doc0).doc.imgs
        = doc0.imgs.map (imgRewrite t w pageUrl))
    ∧ (∀ (sc : ScriptElem) (u : String), sc.src = some u → (u == "") = false →
        (downloadResult t w (urljoin pageUrl u) = none →
          scriptRewrite t w pageUrl sc = sc)
        ∧ (∀ f, downloadResult t w (urljoin pageUrl u) = some f →
            scriptRewrite t w pageUrl sc = ⟨some f⟩))
    ∧ (∀ (im : ImgElem) (v : String), pyFirstTruthy im.src im.srcset = some v →
        (downloadResult t w (urljoin pageUrl (firstCandidate v)) = none →
          imgRewrite t w pageUrl im = im)
        ∧ (∀ f, downloadResult t w (urljoin pageUrl (firstCandidate v)) = some f →
            imgRewrite t w pageUrl im = { im with src := some f })) := by
  refine ⟨⟨?_, ?_, ?_, ?_⟩, ?_, ?_⟩
  · rw [clone_webpage_doc]
  · rw [clone_webpage_doc]
  · rw [clone_webpage_doc]
  · rw [clone_webpage_doc]
  · intro sc u hsrc hne
    constructor
    · intro hnone
      unfold scriptRewrite
      rw [hsrc]
      simp [hne, hnone]
    · intro f hf
      unfold scriptRewrite
      rw [hsrc]
      simp [hne, hf]
  · intro im v hv
    constructor
    · intro hnone
      unfold imgRewrite
      rw [hv]
      simp [hnone]
    · intro f hf
      unfold imgRewrite
      rw [hv]
      simp [hf]

/-- Witness for C3 at a concrete mixed document: the reachable script is
rewritten to its local filename, the unreachable one keeps its remote URL,
and the run completes. -/
theorem c3_witness :
    (clone_webpage c3Transport alwaysWrite true "https://p.com/" c3Doc).doc.scripts
      = [⟨some "a.js"⟩, ⟨some "https://dead.com/b.js"⟩] := by
  have h := c3_failure_isolation c3Transport alwaysWrite "https://p.com/" c3Doc
  have h1 := (h.2.1 ⟨some "a.js"⟩ "a.js" rfl (by decide)).2 "a.js" (by decide)
  have h2 := (h.2.1 ⟨some "https://dead.com/b.js"⟩ "https://dead.com/b.js" rfl
    (by decide)).1 (by decide)
  have hgoal : List.map (scriptRewrite c3Transport alwaysWrite "https://p.com/")
      [⟨some "a.js"⟩, ⟨some "https://dead.com/b.js"⟩]
      = [⟨some "a.js"⟩, ⟨some "https://dead.com/b.js"⟩] := by
    rw [List.map_cons, List.map_cons, List.map_nil, h1, h2]
  exact (h.1.2.2.1).trans hgoal

/-- C4 counterexample: the claim states that a fetched `@import` target is
recursively processed by the CSS walker, so in the chain A→B→A the stored
copy of B would reference A's local filename `a.css`.  In the code,
`process_css` downloads `@import` targets as opaque resources and never
recurses: the stored copy of `b.css` is its raw remote text, still importing
`/a.css` remotely. -/
theorem c4_no_recursive_processing :
    c4Run.session.files.lookup "b.css" = some "@import \"/a.css\""
    ∧ ("@import \"/a.css\"" ≠ "@import \"a.css\"") := by decide

/-- C4 (amended): an `@import` target is fetched exactly once per match and
saved as-is; only the importing stylesheet's own text is rewritten (the
reference to B in A becomes `@import "b.css"`), and since there is no
recursion the
A→B→A chain trivially terminates with one fetch of A (by the link loop) and
one of B. -/
theorem c4_amended_import_once_raw_saved :
    c4Run.session.fetchLog = ["https://site/a.css", "https://site/sub/b.css"]
    ∧ c4Run.session.files
      = [("b.css", "@import \"/a.css\""), ("a.css", "@import \"b.css\""),
         ("index.html", "")] := by decide

/-- C5: the claim states that fragment-only references never trigger a fetch
and are left byte-for-byte unmodified.  For markup attributes the code joins
the raw value against the page URL before the `startswith` guard of
`download_resource` can see it, so `<img src="#top">` on
`https://ex.com/page.html` triggers a fetch of
`https://ex.com/page.html#top` and rewrites `src` to `page.html`. -/
theorem c5_fragment_reference_fetched :
    (clone_webpage c5Transport alwaysWrite true "https://ex.com/page.html" c5Doc).session.fetchLog
      = ["https://ex.com/page.html#top"]
    ∧ (clone_webpage c5Transport alwaysWrite true "https://ex.com/page.html" c5Doc).doc.imgs
      = [⟨some "page.html", none⟩] := by decide

/-- C6 counterexample: the claim states that a non-2xx response leaves the
referencing attribute unchanged for every kind of reference, including
stylesheet links.  The stylesheet loop never checks the response status: a
404 response body is processed, written to disk as `s.css`, and the link's
`href` is rewritten from `css/s.css` to `s.css`. -/
theorem c6_stylesheet_404_rewritten :
    (clone_webpage c6Transport alwaysWrite true "https://site/" c6Doc).doc.links
      = [⟨some ["stylesheet"], some "s.css"⟩]
    ∧ (clone_webpage c6Transport alwaysWrite true "https://site/" c6Doc).session.files
      = [("s.css", "Not Found"), ("index.html", "")] := by decide

/-- C6 (amended): for every reference fetched through `download_resource`
(scripts, images, CSS-embedded resources and `@import` targets), a 4xx/5xx
response is a failure: no filename is returned, no file is written, and the
caller leaves the reference unchanged; stylesheet `<link>` fetches, however,
bypass this check (see the counterexample). -/
theorem c6_amended_http_error_isolation (t : Transport) (w : WriteOracle)
    (u : String) (s : Session) (r : Response)
    (hr : t u = some r) (h4 : 400 ≤ r.status) (h6 : r.status < 600) :
    (download_resource t w u s).1 = none
    ∧ (download_resource t w u s).2.files = s.files := by
  unfold download_resource
  dsimp only
  split
  · exact ⟨rfl, rfl⟩
  · split
    · exact ⟨rfl, rfl⟩
    · rw [hr]
      dsimp only
      rw [if_pos (by simp [h4, h6])]
      exact ⟨rfl, rfl⟩

/-- Witness for the amended C6 at a concrete 404. -/
theorem c6_amended_witness :
    (download_resource c6wTransport alwaysWrite "https://site/p.png" emptySession).1 = none
    ∧ (download_resource c6wTransport alwaysWrite "https://site/p.png" emptySession).2.files
      = ([] : List (String × String)) :=
  c6_amended_http_error_isolation c6wTransport alwaysWrite "https://site/p.png"
    emptySession ⟨404, "", "NF"⟩ (by decide) (by decide) (by decide)

/-- C7 counterexample: the claim states that every failure to write a file to
disk is fatal for the whole session.  A failing write of the resource file
`app.js` is caught inside `download_resource`: the session continues, the
script keeps its remote reference, and the run still prints the success
message. -/
theorem c7_resource_write_failure_nonfatal :
    c7Write "app.js" = false
    ∧ (clone_webpage c7Transport c7Write true "https://site/" c7Doc).success = true
    ∧ (clone_webpage c7Transport c7Write true "https://site/" c7Doc).doc.scripts
      = [⟨some "app.js"⟩]
    ∧ (clone_webpage c7Transport c7Write true "https://site/" c7Doc).session.files
      = [("index.html", "")] := by decide

/-- C7 (amended): only a `makedirs` failure or a failure to write the final
`index.html` aborts the remainder of the session and suppresses the success
report; failures writing individual resource or stylesheet files are caught
locally and never affect completion, and no failure of any kind is propagated
to the caller (the function always returns normally). -/
theorem c7_amended_fatality (t : Transport) (w : WriteOracle) (mkdirOk : Bool)
    (pageUrl : String) (doc0 : Doc) :
    (clone_webpage t w mkdirOk pageUrl doc0).success = (mkdirOk && w "index.html") := by
  unfold clone_webpage
  cases mkdirOk with
  | false => rfl
  | true =>
    rw [if_neg (by decide : ¬((!true) = true))]
    dsimp only
    cases hw : w "index.html" with
    | true => rfl
    | false => rfl

/-- C8: the claim states that `<link>` elements with an allow-listed `rel`
are fetched and rewritten.  BeautifulSoup stores `rel` as a token list, so
the loop's membership test compares a list against plain strings and is
always `False`: the loop never modifies any link and never fetches; in
particular an icon link is left untouched and no fetch occurs in its run. -/
theorem c8_allowlist_loop_never_fires :
    (∀ (t : Transport) (w : WriteOracle) (pageUrl : String) (link : LinkElem) (s : Session),
        processOtherLink t w pageUrl link s = (link, s))
    ∧ (clone_webpage c8Transport alwaysWrite true "https://site/" c8Doc).doc.links
      = [⟨some ["icon"], some "favicon.ico"⟩]
    ∧ (clone_webpage c8Transport alwaysWrite true "https://site/" c8Doc).session.fetchLog = [] :=
  ⟨processOtherLink_id, by decide, by decide⟩

/-- C9 counterexample: the claim states that only the exact matched text
spans are replaced and all non-matched CSS (comments included) is preserved
verbatim.  Replacement is Python `str.replace` over the whole stylesheet: the
URL text `img/x.png` matched inside `url(...)` is also replaced inside the
comment, which the claim says must stay verbatim. -/
theorem c9_comment_text_rewritten :
    (process_css c9Transport alwaysWrite c9Css "https://site/c.css" emptySession).1
      = "/* see x.png */ background:url(x.png);"
    ∧ (process_css c9Transport alwaysWrite c9Css "https://site/c.css" emptySession).1
      ≠ "/* see img/x.png */ background:url(x.png);" := by decide

/-- C9 (amended): rewriting is global textual substitution of each matched
URL text across the whole stylesheet (every occurrence, in comments or
elsewhere, is replaced); stylesheet text on which neither regex matches is
returned byte-for-byte unchanged with no fetch and no state change. -/
theorem c9_amended_unmatched_css_preserved (t : Transport) (w : WriteOracle)
    (css cssUrl : String) (s : Session)
    (hi : findImports css.data = []) (hu : findUrls css.data = []) :
    process_css t w css cssUrl s = (css, s) := by
  unfold process_css
  rw [hi]
  simp only [List.foldl_nil]
  rw [hu]
  simp only [List.foldl_nil]

/-- Witness for the amended C9 on a stylesheet with no matches. -/
theorem c9_amended_witness :
    process_css c9Transport alwaysWrite "body: color red;" "https://site/c.css" emptySession
      = ("body: color red;", emptySession) :=
  c9_amended_unmatched_css_preserved c9Transport alwaysWrite "body: color red;"
    "https://site/c.css" emptySession (by decide) (by decide)

/-- C10: the assigned local filename is a deterministic function of the URL
path's basename and the response content type alone: two `download_resource`
calls under any transports, write oracles and session states that see the
same content type and path basename return the same filename — in particular
two distinct URLs whose paths share a basename are assigned the same name. -/
theorem c10_filename_deterministic (t1 t2 : Transport) (w1 w2 : WriteOracle)
    (s1 s2 : Session) (u1 u2 : String) (r1 r2 : Response) (f1 f2 : String)
    (h1 : t1 u1 = some r1) (h2 : t2 u2 = some r2)
    (hct : r1.contentType = r2.contentType)
    (hb : basenameChars (urlparse u1).path.data = basenameChars (urlparse u2).path.data)
    (d1 : (download_resource t1 w1 u1 s1).1 = some f1)
    (d2 : (download_resource t2 w2 u2 s2).1 = some f2) :
    f1 = f2 := by
  rw [download_success_filename t1 w1 u1 s1 r1 f1 h1 d1,
    download_success_filename t2 w2 u2 s2 r2 f2 h2 d2, hct]
  exact derive_filename_eq_of_basename_eq _ _ _ hb

/-- Witness for C10: two distinct URLs with path basename `s.png` and the
same response both yield the filename `s.png`. -/
theorem c10_witness :
    ("https://a.com/x/s.png" ≠ "https://b.com/y/s.png")
    ∧ (download_resource c10Transport alwaysWrite "https://a.com/x/s.png" emptySession).1
      = some "s.png"
    ∧ (download_resource c10Transport alwaysWrite "https://b.com/y/s.png" emptySession).1
      = some "s.png"
    ∧ ("s.png" : String) = "s.png" := by
  refine ⟨by decide, by decide, by decide, ?_⟩
  exact c10_filename_deterministic c10Transport c10Transport alwaysWrite alwaysWrite
    emptySession emptySession "https://a.com/x/s.png" "https://b.com/y/s.png"
    ⟨200, "image/png", "IMG"⟩ ⟨200, "image/png", "IMG"⟩ "s.png" "s.png"
    (by decide) (by decide) (by decide) (by decide) (by decide) (by decide)
